import Mathlib

/-!
Verification development for the Bloomwatch web application (src/app.py).

The development shallowly embeds the parts of app.py that the checked
properties speak about:

* per-pixel semantics of the Earth Engine raster operations used by the
  bloom computation (subtract, gt, updateMask, clip), with a masked
  pixel represented as `none`;
* the deferred Earth Engine image expressions built by
  `get_ndvi_and_bloom_map` as a small syntax tree, together with a
  per-pixel evaluator;
* the country-geometry lookup over the LSIB boundary feature collection;
* the map-building function `get_ndvi_and_bloom_map`, including the
  reference to the never-defined Python name `country_geometry` on its
  bloom-difference line, modelled as a thrown `NameError` in an
  exception monad, and the blanket `except` clause that converts any
  exception into inline error markup;
* the two time-series functions and their chart-file naming;
* the `index` request handler and its year-list handling.

Remote calls that the code can actually reach before any exception are
modelled by explicit environment records; numeric pixel values are exact
rationals.
-/

namespace Bloomwatch

/-! ## Per-pixel raster semantics

A single-band raster pixel: `none` is a masked ("no data") pixel,
`some v` an unmasked pixel with value `v`. -/

abbrev Pixel := Option ℚ

/-- Pixel semantics of `ee.Image.subtract`: the result is masked wherever
either operand is masked. -/
def subtractPix : Pixel → Pixel → Pixel
  | some a, some b => some (a - b)
  | _, _ => none

/-- Pixel semantics of `ee.Image.gt(constant)`: 1 where the value strictly
exceeds the constant, 0 otherwise, masked where the input is masked. -/
def gtPix (p : Pixel) (c : ℚ) : Pixel :=
  p.map (fun v => if c < v then (1 : ℚ) else 0)

/-- Pixel semantics of `ee.Image.updateMask(maskImage)`: the pixel is kept
only where the mask image is unmasked and has a nonzero value. -/
def updateMaskPix (p m : Pixel) : Pixel :=
  match m with
  | none => none
  | some v => if v = 0 then none else p

/-- Pixel semantics of clipping to a geometry: the pixel survives only if
it lies inside the geometry (`inside` is the pixel-location predicate). -/
def clipPix (inside : Bool) (p : Pixel) : Pixel :=
  if inside then p else none

/-! ## Geometry model

A geometry is a list of polygon rings, each ring a list of (lon, lat)
coordinates; an empty list is an empty geometry. -/

abbrev Ring := List (ℚ × ℚ)

/-- One feature of the `USDOS/LSIB_SIMPLE/2017` boundary collection:
a country name (property `country_na`) and its boundary geometry. -/
structure Feature where
  country_na : String
  geomParts : List Ring
  deriving Repr, DecidableEq

abbrev FeatureCollection := List Feature

/-- `countries_fc.filter(ee.Filter.eq(country_na, name))` (app.py lines 53,
54, 189, 243): keep the features whose name property equals the query. -/
def filterCountryNa (fc : FeatureCollection) (name : String) : FeatureCollection :=
  fc.filter (fun f => f.country_na = name)

/-- `FeatureCollection.geometry()`: the union of the geometries of the
features; for an empty collection this is an empty geometry, not an error. -/
def fcGeometry (fc : FeatureCollection) : List Ring :=
  (fc.map Feature.geomParts).flatten

/-! ## Earth Engine image expressions

`get_ndvi_and_bloom_map` builds deferred Earth Engine image expressions;
no pixel data is touched locally.  The expressions are embedded as a
syntax tree.  A `source` leaf stands for a mean composite of a named
collection/band for one calendar year (lines 57-65, 81-95 of app.py). -/

inductive EEImage where
  /-- Mean composite of a collection/band over one calendar year. -/
  | source (tag : String) (year : ℤ)
  /-- `img.clip(geometry)`. -/
  | clip (img : EEImage) (geom : List Ring)
  /-- `a.subtract(b)`. -/
  | subtract (a b : EEImage)
  /-- `img.gt(c)`. -/
  | gtConst (img : EEImage) (c : ℚ)
  /-- `img.updateMask(mask)`. -/
  | updateMask (img mask : EEImage)
  /-- `img.reduceResolution(...)` (only built when `use_reduce_resolution`). -/
  | reduceResolution (img : EEImage)
  deriving Repr, DecidableEq

/-- Evaluation environment fixing one pixel location: the value each
source composite takes there, whether the location lies inside a given
geometry, and an arbitrary semantics for the resolution-reduction
operator (which aggregates neighbouring pixels and is therefore not
pixel-local; no checked property depends on it). -/
structure PixelEnv where
  sourceVal : String → ℤ → Pixel
  inGeom : List Ring → Bool
  reduceSem : EEImage → Pixel

/-- Per-pixel evaluation of an image expression. -/
def evalPix (env : PixelEnv) : EEImage → Pixel
  | .source t y => env.sourceVal t y
  | .clip i g => clipPix (env.inGeom g) (evalPix env i)
  | .subtract a b => subtractPix (evalPix env a) (evalPix env b)
  | .gtConst i c => gtPix (evalPix env i) c
  | .updateMask i m => updateMaskPix (evalPix env i) (evalPix env m)
  | .reduceResolution i => env.reduceSem i

/-- The thresholded bloom mask built from a difference image
(app.py lines 78 and 107): `diff.updateMask(diff.gt(threshold))`. -/
def thresholdMaskImg (diff : EEImage) (threshold : ℚ) : EEImage :=
  .updateMask diff (.gtConst diff threshold)

/-- The MODIS bloom mask built from a current and a previous NDVI image
(app.py line 78): `diff.updateMask(diff.gt(50))` where
`diff = current.subtract(previous)`. -/
def modisBloomMaskImg (current previous : EEImage) : EEImage :=
  thresholdMaskImg (.subtract current previous) 50

/-- The Sentinel-2 bloom mask (app.py line 107):
`diff.updateMask(diff.gt(0.1))`. -/
def sentinelBloomMaskImg (current previous : EEImage) : EEImage :=
  thresholdMaskImg (.subtract current previous) (1/10)

/-- The inter-source overlap raster (app.py line 110):
`modis_bloom_mask.updateMask(sentinel_bloom_mask)`. -/
def overlapBloomImg (modisMask sentinelMask : EEImage) : EEImage :=
  .updateMask modisMask sentinelMask

/-- Pixel-level form of the thresholded bloom mask: the difference kept
only where it strictly exceeds the threshold. -/
def bloomMaskPix (current previous : Pixel) (threshold : ℚ) : Pixel :=
  updateMaskPix (subtractPix current previous) (gtPix (subtractPix current previous) threshold)

theorem evalPix_modisBloomMaskImg (env : PixelEnv) (a b : EEImage) :
    evalPix env (modisBloomMaskImg a b) = bloomMaskPix (evalPix env a) (evalPix env b) 50 := rfl

theorem evalPix_sentinelBloomMaskImg (env : PixelEnv) (a b : EEImage) :
    evalPix env (sentinelBloomMaskImg a b) = bloomMaskPix (evalPix env a) (evalPix env b) (1/10) := rfl

/-- A kept pixel of a thresholded bloom mask carries the raw difference,
and that difference strictly exceeds the threshold. -/
theorem bloomMaskPix_unmasked (c p t : ℚ) :
    bloomMaskPix (some c) (some p) t = if t < c - p then some (c - p) else none := by
  unfold bloomMaskPix subtractPix gtPix updateMaskPix
  by_cases h : t < c - p <;> simp [h]

theorem bloomMaskPix_some (current previous : Pixel) (t v : ℚ)
    (h : bloomMaskPix current previous t = some v) :
    subtractPix current previous = some v ∧ t < v := by
  cases current with
  | none => simp [bloomMaskPix, subtractPix, gtPix, updateMaskPix] at h
  | some c =>
    cases previous with
    | none => simp [bloomMaskPix, subtractPix, gtPix, updateMaskPix] at h
    | some p =>
      rw [bloomMaskPix_unmasked] at h
      by_cases hlt : t < c - p
      · rw [if_pos hlt] at h
        injection h with h
        subst h
        exact ⟨rfl, hlt⟩
      · rw [if_neg hlt] at h
        exact absurd h (by simp)

theorem evalPix_thresholdMaskImg (env : PixelEnv) (d : EEImage) (t : ℚ) :
    evalPix env (thresholdMaskImg d t) =
      updateMaskPix (evalPix env d) (gtPix (evalPix env d) t) := rfl

/-! ## Python-level scaffolding for the map pipeline -/

/-- The Python exceptions that the embedded code can raise. -/
inductive PyExc where
  | nameError (missing : String)
  | valueError (msg : String)
  | eeError (msg : String)
  deriving Repr, DecidableEq

/-- Python `str.isdigit` on the ASCII strings the form submits: true
exactly when the string is non-empty and all its characters are digits. -/
def pyIsDigit (s : String) : Bool :=
  !s.data.isEmpty && s.data.all Char.isDigit

/-- Decimal value of a digit character list, most significant first. -/
def digitsToNat (l : List Char) : ℕ :=
  l.foldl (fun acc c => acc * 10 + (c.toNat - '0'.toNat)) 0

/-- Python `int()` applied to a string that passed `isdigit`. -/
def pyInt (s : String) : ℤ :=
  (digitsToNat s.data : ℕ)

/-- Lines 48-50 of app.py (and, identically, lines 307-309 of the
request handler): keep the all-digit year strings, convert them to
integers, and fall back to `[2023]` when none remain. -/
def effectiveYears (selected_years : List String) : List ℤ :=
  let ys := (selected_years.filter pyIsDigit).map pyInt
  if ys = [] then [2023] else ys

theorem effectiveYears_ne_nil (selected_years : List String) :
    effectiveYears selected_years ≠ [] := by
  unfold effectiveYears
  by_cases h : ((selected_years.filter pyIsDigit).map pyInt) = [] <;> simp [h]

/-- Line 51 of app.py: `last_year = int(selected_years[-1])`, the last
element of the processed year list (which is never empty, so the
default of `getLastD` is never consulted). -/
def mapLastYear (selected_years : List String) : ℤ :=
  (effectiveYears selected_years).getLastD 2023

/-! ## The layers added to the folium map -/

/-- Where a folium tile layer gets its tiles from: the CARTO basemap URL,
an Earth Engine `getMapId` tile fetcher for an image expression, or an
Earth Engine `getMapId` tile fetcher for a styled country feature
collection (the red border outline). -/
inductive TileSource where
  | basemap
  | eeTiles (img : EEImage)
  | eeStyledFc (cfc : FeatureCollection)
  deriving Repr, DecidableEq

/-- One `folium.TileLayer` added to the map, in insertion order. -/
structure TileLayer where
  name : String
  attrib : String
  overlay : Bool
  source : TileSource
  deriving Repr, DecidableEq

/-- The base tile layer (app.py lines 119-125). -/
def baseLayer : TileLayer :=
  { name := "CartoDB Positron No Labels"
    attrib := "OpenStreetMap contributors and CARTO"
    overlay := false
    source := .basemap }

/-- True for a layer whose tiles come from an Earth Engine raster image
(the NDVI, MODIS-bloom and Sentinel-overlap overlays). -/
def TileLayer.isEeRaster (l : TileLayer) : Bool :=
  match l.source with
  | .eeTiles _ => true
  | _ => false

/-- True for the styled country-border outline layer. -/
def TileLayer.isBorder (l : TileLayer) : Bool :=
  match l.source with
  | .eeStyledFc _ => true
  | _ => false

/-- True for a bloom overlay (the MODIS bloom layer or the
Sentinel overlap layer). -/
def TileLayer.isBloom (l : TileLayer) : Bool :=
  l.name = "MODIS Bloom" || l.name = "Sentinel Bloom"

/-! ## get_ndvi_and_bloom_map (app.py lines 36-179) -/

/-- The body of `get_ndvi_and_bloom_map` (the `try` suite, lines 47-176),
in an exception monad.  Deferred Earth Engine expressions are built as
`EEImage` values; `getMapId` is modelled as pure tile construction (it is
only reached after the line that raises, so no property depends on it).
Line 70 references the Python name `country_geometry`, which is defined
nowhere in app.py, so evaluating that line raises `NameError`; everything
after it in this do-block is unreachable but is embedded anyway to mirror
the source. -/
def mapBody (fc : FeatureCollection) (country_name : String)
    (selected_years : List String)
    (show_ndvi show_bloom show_sentinel use_reduce_resolution : Bool) :
    Except PyExc (List TileLayer) := do
  let last_year := mapLastYear selected_years
  let country_geom : Option (List Ring) :=
    if country_name = "World" then none
    else some (fcGeometry (filterCountryNa fc country_name))
  let country_fc : Option FeatureCollection :=
    if country_name ≠ "World" then some (filterCountryNa fc country_name) else none
  let ndvi_current := EEImage.source "MODIS/006/MOD13Q1:NDVI" last_year
  let ndvi_prev := EEImage.source "MODIS/006/MOD13Q1:NDVI" (last_year - 1)
  let ndvi_current := match country_geom with
    | some g => EEImage.clip ndvi_current g
    | none => ndvi_current
  let ndvi_prev := match country_geom with
    | some g => EEImage.clip ndvi_prev g
    | none => ndvi_prev
  let modis_bloom_diff : EEImage ←
    (fun _receiver => throw (PyExc.nameError "country_geometry"))
      (EEImage.subtract ndvi_current ndvi_prev)
  let modis_bloom_diff := match country_geom with
    | some g => EEImage.clip modis_bloom_diff g
    | none => modis_bloom_diff
  let modis_bloom_mask :=
    if use_reduce_resolution then EEImage.reduceResolution (thresholdMaskImg modis_bloom_diff 50)
    else thresholdMaskImg modis_bloom_diff 50
  let sentinel_ndvi := EEImage.source "COPERNICUS/S2_SR:NDVI" last_year
  let sentinel_prev_ndvi := EEImage.source "COPERNICUS/S2_SR:NDVI" (last_year - 1)
  let sentinel_ndvi := match country_geom with
    | some g => EEImage.clip sentinel_ndvi g
    | none => sentinel_ndvi
  let sentinel_prev_ndvi := match country_geom with
    | some g => EEImage.clip sentinel_prev_ndvi g
    | none => sentinel_prev_ndvi
  let sentinel_bloom_diff := EEImage.subtract sentinel_ndvi sentinel_prev_ndvi
  let sentinel_bloom_mask :=
    if use_reduce_resolution then
      EEImage.reduceResolution (thresholdMaskImg sentinel_bloom_diff (1/10))
    else thresholdMaskImg sentinel_bloom_diff (1/10)
  let overlap_bloom := overlapBloomImg modis_bloom_mask sentinel_bloom_mask
  let layers : List TileLayer := [baseLayer]
  let layers := layers ++
    (if show_ndvi then
      [{ name := "NDVI", attrib := "MODIS NDVI", overlay := true,
         source := .eeTiles ndvi_current }]
     else [])
  let layers := layers ++
    (if show_bloom then
      [{ name := "MODIS Bloom", attrib := "MODIS Bloom", overlay := true,
         source := .eeTiles modis_bloom_mask }]
     else [])
  let layers := layers ++
    (if show_sentinel then
      [{ name := "Sentinel Bloom", attrib := "Sentinel Bloom", overlay := true,
         source := .eeTiles overlap_bloom }]
     else [])
  let layers := layers ++
    (if country_name ≠ "World" ∧ country_geom.isSome then
      [{ name := country_name ++ " Border", attrib := country_name ++ " Borders",
         overlay := true, source := .eeStyledFc (country_fc.getD []) }]
     else [])
  pure layers

/-- The outcome of `get_ndvi_and_bloom_map`: either the rendered map
markup (represented by its list of tile layers) or the inline error
markup built by the `except` clause on lines 178-179. -/
inductive MapOutput where
  | rendered (layers : List TileLayer)
  | errorHtml (country_name : String) (exc : PyExc)
  deriving Repr, DecidableEq

/-- `get_ndvi_and_bloom_map` (app.py lines 36-179): run the body; any
exception is caught and turned into inline error markup naming the
country and the exception. -/
def get_ndvi_and_bloom_map (fc : FeatureCollection) (country_name : String)
    (selected_years : List String)
    (show_ndvi show_bloom show_sentinel use_reduce_resolution : Bool) :
    MapOutput :=
  match mapBody fc country_name selected_years
      show_ndvi show_bloom show_sentinel use_reduce_resolution with
  | .ok layers => .rendered layers
  | .error e => .errorHtml country_name e

/-- The tile layers contained in a map output; inline error markup
contains none. -/
def layersOf : MapOutput → List TileLayer
  | .rendered layers => layers
  | .errorHtml _ _ => []

/-- The number of Earth Engine raster tile layers in a map output. -/
def rasterLayerCount (out : MapOutput) : ℕ :=
  (layersOf out).countP (fun l => l.isEeRaster)

/-- A one-country boundary table used to instantiate closed statements. -/
def sampleFc : FeatureCollection :=
  [{ country_na := "Kenya", geomParts := [[(34, -1), (41, -1), (41, 4), (34, 4)]] }]

/-- C3: the Bloom Calculator masks every pixel whose raw difference
(current minus previous) is at most the configured threshold and keeps
every pixel whose difference strictly exceeds it; the kept pixel carries
the difference value.  In particular, for the MODIS threshold of 50, a
pixel with difference exactly 50 is masked, and a pixel with
current = 6200, previous = 6100 (difference 100) is kept. -/
theorem modis_bloom_threshold_strict :
    (∀ (env : PixelEnv) (a b : EEImage),
      evalPix env (modisBloomMaskImg a b) =
        bloomMaskPix (evalPix env a) (evalPix env b) 50) ∧
    (∀ c p : ℚ,
      bloomMaskPix (some c) (some p) 50 =
        if 50 < c - p then some (c - p) else none) ∧
    bloomMaskPix (some 6200) (some 6100) 50 = some 100 ∧
    bloomMaskPix (some 6150) (some 6100) 50 = none := by
  refine ⟨fun env a b => rfl, fun c p => bloomMaskPix_unmasked c p 50, ?_, ?_⟩ <;>
    simp [bloomMaskPix_unmasked] <;> norm_num

/-- C9: the inter-source overlap raster
`modis_bloom_mask.updateMask(sentinel_bloom_mask)` is the logical AND of
the two independently thresholded bloom masks: at every pixel it equals
the MODIS bloom-mask pixel (which, when kept, carries the MODIS bloom
difference) where the Sentinel bloom mask is kept, and is masked where
the Sentinel mask is masked. -/
theorem overlap_is_and_of_masks (env : PixelEnv) (mc mp sc sp : EEImage) :
    evalPix env (overlapBloomImg (modisBloomMaskImg mc mp) (sentinelBloomMaskImg sc sp)) =
      if (evalPix env (sentinelBloomMaskImg sc sp)).isSome
      then evalPix env (modisBloomMaskImg mc mp)
      else none := by
  show updateMaskPix (evalPix env (modisBloomMaskImg mc mp))
      (evalPix env (sentinelBloomMaskImg sc sp)) = _
  cases hS : evalPix env (sentinelBloomMaskImg sc sp) with
  | none => simp [updateMaskPix]
  | some v =>
    have hS' : bloomMaskPix (evalPix env sc) (evalPix env sp) (1/10) = some v := by
      rw [← evalPix_sentinelBloomMaskImg]
      exact hS
    obtain ⟨-, hv⟩ := bloomMaskPix_some _ _ _ _ hS'
    have hvne : v ≠ 0 := by
      have : (0 : ℚ) < v := lt_trans (by norm_num) hv
      exact this.ne'
    simp [updateMaskPix, hvne]

/-- C2: for every input (any boundary table, country name, year list and
flag combination), `get_ndvi_and_bloom_map` takes its exception branch
and returns the inline error markup, never a rendered map, because the
bloom-difference line references the never-defined Python name
`country_geometry`, which raises `NameError` before any layer is built. -/
theorem map_always_returns_inline_error (fc : FeatureCollection)
    (country_name : String) (selected_years : List String)
    (show_ndvi show_bloom show_sentinel use_reduce_resolution : Bool) :
    get_ndvi_and_bloom_map fc country_name selected_years
        show_ndvi show_bloom show_sentinel use_reduce_resolution =
      .errorHtml country_name (.nameError "country_geometry") := rfl

/-- C5: for every input, `get_ndvi_and_bloom_map` returns markup and
never raises to its caller: when its body raises an exception the result
is the short inline error markup for that exception in place of the map,
and when the body succeeds the result is the rendered map. -/
theorem map_composer_never_raises (fc : FeatureCollection)
    (country_name : String) (selected_years : List String)
    (show_ndvi show_bloom show_sentinel use_reduce_resolution : Bool) :
    (∃ e, mapBody fc country_name selected_years
          show_ndvi show_bloom show_sentinel use_reduce_resolution = .error e ∧
        get_ndvi_and_bloom_map fc country_name selected_years
          show_ndvi show_bloom show_sentinel use_reduce_resolution =
            .errorHtml country_name e) ∨
    (∃ layers, mapBody fc country_name selected_years
          show_ndvi show_bloom show_sentinel use_reduce_resolution = .ok layers ∧
        get_ndvi_and_bloom_map fc country_name selected_years
          show_ndvi show_bloom show_sentinel use_reduce_resolution =
            .rendered layers) := by
  cases h : mapBody fc country_name selected_years
      show_ndvi show_bloom show_sentinel use_reduce_resolution with
  | error e =>
    exact Or.inl ⟨e, rfl, by unfold get_ndvi_and_bloom_map; rw [h]⟩
  | ok layers =>
    exact Or.inr ⟨layers, rfl, by unfold get_ndvi_and_bloom_map; rw [h]⟩

/-- C1 counterexample: for the request country World, year 2023,
show_ndvi true, show_bloom false (with the remaining parameters at the
values the request handler leaves them: show_sentinel true,
use_reduce_resolution false), the map output contains zero raster tile
layers, not exactly one, because the call returns the inline error
markup instead of a map. -/
theorem scenario1_zero_raster_layers :
    rasterLayerCount
      (get_ndvi_and_bloom_map sampleFc "World" ["2023"] true false true false) = 0 := rfl

/-- C1 amended: for the request country World, year 2023, show_ndvi
true, show_bloom false, `get_ndvi_and_bloom_map` returns the inline
error markup recording the `NameError` for `country_geometry`, and that
output contains no tile layers at all (no raster layer, no base layer,
no bloom layer, no country border layer). -/
theorem scenario1_returns_inline_error :
    get_ndvi_and_bloom_map sampleFc "World" ["2023"] true false true false =
      .errorHtml "World" (.nameError "country_geometry") ∧
    layersOf (get_ndvi_and_bloom_map sampleFc "World" ["2023"] true false true false) = [] :=
  ⟨rfl, rfl⟩

/-! ## Time-series functions (app.py lines 184-292) -/

/-- The whole-world polygon built on line 187/241 of app.py. -/
def worldPolygon : List Ring :=
  [[(-180, -90), (-180, 90), (180, 90), (180, -90), (-180, -90)]]

/-- The geometry resolution performed at the top of both time-series
functions (lines 186-190 and 240-244): the world polygon for the
sentinel name, otherwise the geometry of the boundary features whose
`country_na` equals the requested name.  The code contains no raise: an
unrecognized name simply produces the geometry of an empty collection. -/
def tsGeometry (fc : FeatureCollection) (country_name : String) :
    Except PyExc (List Ring) :=
  if country_name = "World" then .ok worldPolygon
  else .ok (fcGeometry (filterCountryNa fc country_name))

/-- One feature of the NDVI time-series `getInfo` reply, after the
remote notNull filter: a date string and the mean NDVI scalar. -/
structure NdviFeatureRec where
  date : String
  ndvi : ℚ
  deriving Repr, DecidableEq

/-- One feature of the bloom time-series `getInfo` reply: a date string
and the mean bloom difference, which the code still guards against being
None even after the notNull filter. -/
structure BloomFeatureRec where
  date : String
  bloom : Option ℚ
  deriving Repr, DecidableEq

/-- Outcome of the remote work inside one NDVI time-series call: what
`getInfo` returns (or raises), and whether producing and saving the
chart file raises. -/
structure NdviTsEnv where
  info : Except PyExc (List NdviFeatureRec)
  saveExc : Option PyExc

/-- Outcome of the remote work inside one bloom time-series call. -/
structure BloomTsEnv where
  info : Except PyExc (List BloomFeatureRec)
  saveExc : Option PyExc

/-- Split a character list at every occurrence of a separator. -/
def splitOnChar (sep : Char) : List Char → List (List Char)
  | [] => [[]]
  | c :: cs =>
    let rest := splitOnChar sep cs
    if c = sep then [] :: rest
    else
      match rest with
      | [] => [[c]]
      | h :: t => (c :: h) :: t

/-- Simplified model of `datetime.strptime(s, %Y-%m-%d)`: accepts three
dash-separated digit fields with the month and day fields in range, and
raises ValueError otherwise. -/
def pyStrptimeYmd (s : String) : Except PyExc (ℤ × ℕ × ℕ) :=
  match splitOnChar '-' s.data with
  | [y, m, d] =>
    let mv := digitsToNat m
    let dv := digitsToNat d
    if (!y.isEmpty && y.all Char.isDigit) ∧ (!m.isEmpty && m.all Char.isDigit) ∧
        (!d.isEmpty && d.all Char.isDigit) ∧
        1 ≤ mv ∧ mv ≤ 12 ∧ 1 ≤ dv ∧ dv ≤ 31 then
      .ok ((digitsToNat y : ℕ), mv, dv)
    else .error (.valueError s)
  | _ => .error (.valueError s)

/-- Line 212 of app.py: the NDVI value put on the chart is the raw
stored value divided by 10000. -/
def ndviDisplayValue (raw : ℚ) : ℚ :=
  raw / 10000

/-- Line 272 of app.py: the bloom value put on the chart is the raw
value divided by 10000 when it is not None, and None otherwise. -/
def bloomDisplayValue (raw : Option ℚ) : Option ℚ :=
  match raw with
  | some v => some (v / 10000)
  | none => none

/-- The character substitution performed by `.replace(" ", "_")`. -/
def spaceToUnderscoreChar (c : Char) : Char :=
  if c = ' ' then '_' else c

/-- Python `.replace(" ", "_")` as used on lines 225 and 284: the
pattern is a single character, so the replacement is a character map. -/
def pyReplaceSpaceUnderscore (s : String) : String :=
  ⟨s.data.map spaceToUnderscoreChar⟩

/-- Line 225 of app.py: the NDVI chart filename. -/
def ndviChartFilename (country_name year : String) : String :=
  pyReplaceSpaceUnderscore ("ndvi_timeseries_" ++ country_name ++ "_" ++ year ++ ".png")

/-- Line 284 of app.py: the bloom chart filename. -/
def bloomChartFilename (country_name year : String) : String :=
  pyReplaceSpaceUnderscore ("bloom_timeseries_" ++ country_name ++ "_" ++ year ++ ".png")

/-- The body of `generate_ndvi_timeseries` (the try suite, lines
185-229): resolve the geometry, fetch the per-bucket means, parse the
dates, scale the values, save the chart, and return its reference path.
Plotting itself is modelled only through the possibility that producing
and saving the chart raises (`env.saveExc`). -/
def ndviTsBody (env : NdviTsEnv) (fc : FeatureCollection)
    (country_name year : String) : Except PyExc String := do
  let _geometry ← tsGeometry fc country_name
  let features ← env.info
  let _dates ← features.mapM (fun f => pyStrptimeYmd f.date)
  let _ndvi_values := features.map (fun f => ndviDisplayValue f.ndvi)
  match env.saveExc with
  | some e => throw e
  | none => pure ()
  pure ("/static/charts/" ++ ndviChartFilename country_name year)

/-- `generate_ndvi_timeseries` (lines 184-233): any exception in the
body is caught and turned into the missing-result signal None. -/
def generate_ndvi_timeseries (env : NdviTsEnv) (fc : FeatureCollection)
    (country_name year : String) : Option String :=
  match ndviTsBody env fc country_name year with
  | .ok path => some path
  | .error _ => none

/-- The body of `generate_bloom_timeseries` (the try suite, lines
239-288). -/
def bloomTsBody (env : BloomTsEnv) (fc : FeatureCollection)
    (country_name year : String) : Except PyExc String := do
  let _geometry ← tsGeometry fc country_name
  let features ← env.info
  let _dates ← features.mapM (fun f => pyStrptimeYmd f.date)
  let _bloom_values := features.map (fun f => bloomDisplayValue f.bloom)
  match env.saveExc with
  | some e => throw e
  | none => pure ()
  pure ("/static/charts/" ++ bloomChartFilename country_name year)

/-- `generate_bloom_timeseries` (lines 238-292): any exception in the
body is caught and turned into the missing-result signal None. -/
def generate_bloom_timeseries (env : BloomTsEnv) (fc : FeatureCollection)
    (country_name year : String) : Option String :=
  match bloomTsBody env fc country_name year with
  | .ok path => some path
  | .error _ => none

/-! ## The request handler (app.py lines 299-333) -/

/-- The form fields the handler reads. -/
structure FormData where
  country : String
  years : List String
  show_ndvi : Bool
  show_bloom : Bool
  show_bloom_graph : Bool

/-- Lines 307-309 of app.py: keep the all-digit submitted year strings
and fall back to the fixed year 2023 when none remain.  The Python
fallback list holds the integer 2023; every later use formats the year
back into a string, so the processed list is modelled as strings. -/
def indexYears (submitted : List String) : List String :=
  let ys := submitted.filter pyIsDigit
  if ys = [] then ["2023"] else ys

/-- What the handler passes to the template: the map markup and the two
optional chart reference paths. -/
structure IndexResponse where
  map : MapOutput
  timeseries_url : Option String
  bloom_timeseries_url : Option String
  selected_years : List String
  deriving Repr, DecidableEq

/-- The request handler `index` (lines 299-333).  The processed year
list goes whole to the map builder (which takes its last element) and
its first element goes to each time-series function; the handler leaves
`show_sentinel` and `use_reduce_resolution` of the map builder at their
defaults True and False. -/
def index (fc : FeatureCollection) (ndviEnv : NdviTsEnv) (bloomEnv : BloomTsEnv)
    (form : FormData) : IndexResponse :=
  let selected_years := indexYears form.years
  let ndvi_map := get_ndvi_and_bloom_map fc form.country selected_years
      form.show_ndvi form.show_bloom true false
  let timeseries_url :=
    if selected_years ≠ [] then
      generate_ndvi_timeseries ndviEnv fc form.country (selected_years.headD "2023")
    else none
  let bloom_timeseries_url :=
    if form.show_bloom_graph ∧ selected_years ≠ [] then
      generate_bloom_timeseries bloomEnv fc form.country (selected_years.headD "2023")
    else none
  { map := ndvi_map
    timeseries_url := timeseries_url
    bloom_timeseries_url := bloom_timeseries_url
    selected_years := selected_years }

/-- C4 counterexample: `Atlantis` is not a country name of the boundary
table, yet the geometry resolution applied to it returns a successful
empty geometry, not a `NotFoundError`: the claim that an unrecognized
name fails rather than returning an empty result is false on the code. -/
theorem unknown_country_yields_ok_empty :
    ((sampleFc.map Feature.country_na).contains "Atlantis") = false ∧
    tsGeometry sampleFc "Atlantis" = .ok [] := by
  exact ⟨rfl, rfl⟩

/-- C4 amended: for every non-World country name, the Geometry Resolver
never raises: a name matched by no boundary feature resolves, without
error, to the empty geometry, while a name matched by a feature with a
non-empty boundary resolves to a non-empty geometry. -/
theorem geometry_resolver_amended (fc : FeatureCollection) (name : String)
    (hw : name ≠ "World") :
    (filterCountryNa fc name = [] → tsGeometry fc name = .ok []) ∧
    (∀ f, f ∈ filterCountryNa fc name → f.geomParts ≠ [] →
      ∃ g, tsGeometry fc name = .ok g ∧ g ≠ []) := by
  constructor
  · intro h
    unfold tsGeometry
    rw [if_neg hw, h]
    rfl
  · intro f hf hg
    refine ⟨fcGeometry (filterCountryNa fc name),
      by unfold tsGeometry; rw [if_neg hw], ?_⟩
    intro hnil
    apply hg
    unfold fcGeometry at hnil
    rw [List.flatten_eq_nil_iff] at hnil
    exact hnil _ (List.mem_map_of_mem _ hf)

/-- C4 amended, instantiated: the unrecognized name Atlantis resolves to
a successful empty geometry on the sample boundary table. -/
theorem geometry_resolver_amended_witness :
    tsGeometry sampleFc "Atlantis" = .ok [] :=
  (geometry_resolver_amended sampleFc "Atlantis" (by decide)).1 (by rfl)

/-- C7: the time-series display value is the raw stored fixed-point
value divided by 10000, for both the NDVI chart and the bloom chart; in
particular a raw stored value of 4321 is displayed as 0.4321. -/
theorem timeseries_display_scaling :
    (∀ raw : ℚ, ndviDisplayValue raw = raw / 10000) ∧
    (∀ raw : ℚ, bloomDisplayValue (some raw) = some (raw / 10000)) ∧
    bloomDisplayValue none = none ∧
    ndviDisplayValue 4321 = 0.4321 ∧
    bloomDisplayValue (some 4321) = some 0.4321 := by
  refine ⟨fun _ => rfl, fun _ => rfl, rfl, ?_, ?_⟩
  · unfold ndviDisplayValue
    norm_num
  · unfold bloomDisplayValue
    norm_num

/-- C6: each time-series function either returns the chart reference
path its body produced or, when its body raises anything, returns the
missing-result signal None without raising; and in the request handler
the map output does not depend on either time-series outcome, the NDVI
chart reference does not depend on the bloom-chart outcome, and the
bloom chart reference does not depend on the NDVI-chart outcome. -/
theorem timeseries_contained_and_independent :
    (∀ (env : NdviTsEnv) (fc : FeatureCollection) (c y : String),
      (∃ p, ndviTsBody env fc c y = .ok p ∧
        generate_ndvi_timeseries env fc c y = some p) ∨
      (∃ e, ndviTsBody env fc c y = .error e ∧
        generate_ndvi_timeseries env fc c y = none)) ∧
    (∀ (env : BloomTsEnv) (fc : FeatureCollection) (c y : String),
      (∃ p, bloomTsBody env fc c y = .ok p ∧
        generate_bloom_timeseries env fc c y = some p) ∨
      (∃ e, bloomTsBody env fc c y = .error e ∧
        generate_bloom_timeseries env fc c y = none)) ∧
    (∀ (fc : FeatureCollection) (nE nE' : NdviTsEnv) (bE bE' : BloomTsEnv)
      (form : FormData),
      (index fc nE bE form).map = (index fc nE' bE' form).map ∧
      (index fc nE bE form).timeseries_url = (index fc nE bE' form).timeseries_url ∧
      (index fc nE bE form).bloom_timeseries_url =
        (index fc nE' bE form).bloom_timeseries_url) := by
  refine ⟨?_, ?_, ?_⟩
  · intro env fc c y
    cases h : ndviTsBody env fc c y with
    | ok p => exact Or.inl ⟨p, rfl, by unfold generate_ndvi_timeseries; rw [h]⟩
    | error e => exact Or.inr ⟨e, rfl, by unfold generate_ndvi_timeseries; rw [h]⟩
  · intro env fc c y
    cases h : bloomTsBody env fc c y with
    | ok p => exact Or.inl ⟨p, rfl, by unfold generate_bloom_timeseries; rw [h]⟩
    | error e => exact Or.inr ⟨e, rfl, by unfold generate_bloom_timeseries; rw [h]⟩
  · intro fc nE nE' bE bE' form
    exact ⟨rfl, rfl, rfl⟩

theorem indexYears_ne_nil (submitted : List String) :
    indexYears submitted ≠ [] := by
  unfold indexYears
  by_cases h : submitted.filter pyIsDigit = [] <;> simp [h]

theorem tsGeometry_eq_ok (fc : FeatureCollection) (country_name : String) :
    tsGeometry fc country_name =
      .ok (if country_name = "World" then worldPolygon
           else fcGeometry (filterCountryNa fc country_name)) := by
  unfold tsGeometry
  split <;> simp_all

theorem generate_ndvi_timeseries_okEnv (fc : FeatureCollection)
    (country_name year : String) :
    generate_ndvi_timeseries ⟨.ok [], none⟩ fc country_name year =
      some ("/static/charts/" ++ ndviChartFilename country_name year) := by
  unfold generate_ndvi_timeseries ndviTsBody
  rw [tsGeometry_eq_ok]
  rfl

theorem generate_bloom_timeseries_okEnv (fc : FeatureCollection)
    (country_name year : String) :
    generate_bloom_timeseries ⟨.ok [], none⟩ fc country_name year =
      some ("/static/charts/" ++ bloomChartFilename country_name year) := by
  unfold generate_bloom_timeseries bloomTsBody
  rw [tsGeometry_eq_ok]
  rfl

/-- C10: the handler-side year list is reused unchanged by the map
builder (re-filtering it is a no-op), whose year is its last element,
while both time-series charts are built from its first element, so one
response can describe two different years (for example the submission
2020, 2023 gives the map the year 2023 and the charts the year 2020);
and when no submitted year string is all digits, the processed list is
2023 alone on both sides. -/
theorem year_selection_map_vs_charts :
    (∀ ys : List String,
      effectiveYears (indexYears ys) = (indexYears ys).map pyInt ∧
      (effectiveYears (indexYears ys)).getLast? = some (mapLastYear (indexYears ys))) ∧
    (∀ (fc : FeatureCollection) (bE : BloomTsEnv) (form : FormData),
      (index fc ⟨.ok [], none⟩ bE form).timeseries_url =
        some ("/static/charts/" ++
          ndviChartFilename form.country ((indexYears form.years).headD "2023"))) ∧
    (∀ (fc : FeatureCollection) (nE : NdviTsEnv) (c : String) (ys : List String)
      (sn sb : Bool),
      (index fc nE ⟨.ok [], none⟩ ⟨c, ys, sn, sb, true⟩).bloom_timeseries_url =
        some ("/static/charts/" ++
          bloomChartFilename c ((indexYears ys).headD "2023"))) ∧
    (mapLastYear (indexYears ["2020", "2023"]) = 2023 ∧
      (indexYears ["2020", "2023"]).headD "2023" = "2020") ∧
    (∀ ys : List String, ys.filter pyIsDigit = [] →
      indexYears ys = ["2023"] ∧ effectiveYears ys = [2023]) := by
  refine ⟨?_, ?_, ?_, ⟨by rfl, by rfl⟩, ?_⟩
  · intro ys
    unfold indexYears
    by_cases h : ys.filter pyIsDigit = []
    · rw [if_pos h]
      exact ⟨rfl, rfl⟩
    · rw [if_neg h]
      have hff : (ys.filter pyIsDigit).filter pyIsDigit = ys.filter pyIsDigit :=
        List.filter_eq_self.mpr (fun a ha => List.of_mem_filter ha)
      have heff : effectiveYears (ys.filter pyIsDigit) = (ys.filter pyIsDigit).map pyInt := by
        unfold effectiveYears
        rw [hff, if_neg (by simpa using h)]
      refine ⟨heff, ?_⟩
      have hm : (ys.filter pyIsDigit).map pyInt ≠ [] := by simpa using h
      rw [heff]
      cases hg : ((ys.filter pyIsDigit).map pyInt).getLast? with
      | none => rw [List.getLast?_eq_none_iff] at hg; exact absurd hg hm
      | some x =>
        unfold mapLastYear
        rw [heff, List.getLastD_eq_getLast?, hg]
        rfl
  · intro fc bE form
    show (if indexYears form.years ≠ [] then
        generate_ndvi_timeseries ⟨.ok [], none⟩ fc form.country
          ((indexYears form.years).headD "2023")
      else none) = _
    rw [if_pos (indexYears_ne_nil form.years)]
    exact generate_ndvi_timeseries_okEnv fc form.country
      ((indexYears form.years).headD "2023")
  · intro fc nE c ys sn sb
    show (if (true : Bool) ∧ indexYears ys ≠ [] then
        generate_bloom_timeseries ⟨.ok [], none⟩ fc c ((indexYears ys).headD "2023")
      else none) = _
    rw [if_pos ⟨rfl, indexYears_ne_nil ys⟩]
    exact generate_bloom_timeseries_okEnv fc c ((indexYears ys).headD "2023")
  · intro ys h
    constructor
    · unfold indexYears
      rw [if_pos h]
    · unfold effectiveYears
      rw [h]
      rfl

/-- C10, instantiated: a submission with no all-digit year string falls
back to the year 2023 in both the handler and the map builder. -/
theorem year_selection_map_vs_charts_witness :
    indexYears ["x"] = ["2023"] ∧ effectiveYears ["x"] = [2023] :=
  year_selection_map_vs_charts.2.2.2.2 ["x"] (by rfl)

/-! ## Chart filename analysis (for the filename claim) -/

/-- The filename scheme exactly as the spec words it: metric,
granularity, country and year joined by underscores, with every space in
the country name replaced by an underscore. -/
def specChartFilename (metric granularity country year : String) : String :=
  metric ++ "_" ++ granularity ++ "_" ++ pyReplaceSpaceUnderscore country ++
    "_" ++ year ++ ".png"

theorem spaceToUnderscoreChar_map_id (l : List Char) (h : ∀ x ∈ l, x ≠ ' ') :
    l.map spaceToUnderscoreChar = l := by
  induction l with
  | nil => rfl
  | cons x xs ih =>
    rw [List.map_cons, ih (fun a ha => h a (List.mem_cons_of_mem x ha))]
    rw [spaceToUnderscoreChar, if_neg (h x (List.mem_cons_self x xs))]

theorem spaceToUnderscoreChar_inj (x z : Char) (hx : x ≠ '_') (hz : z ≠ '_')
    (h : spaceToUnderscoreChar x = spaceToUnderscoreChar z) : x = z := by
  unfold spaceToUnderscoreChar at h
  by_cases h1 : x = ' ' <;> by_cases h2 : z = ' ' <;> simp [h1, h2] at h ⊢ <;>
    first
      | rfl
      | (exact absurd h.symm hz)
      | (exact absurd h hx)
      | exact h

theorem map_spaceToUnderscoreChar_inj (l₁ l₂ : List Char)
    (h₁ : ∀ x ∈ l₁, x ≠ '_') (h₂ : ∀ x ∈ l₂, x ≠ '_')
    (h : l₁.map spaceToUnderscoreChar = l₂.map spaceToUnderscoreChar) : l₁ = l₂ := by
  induction l₁ generalizing l₂ with
  | nil =>
    cases l₂ with
    | nil => rfl
    | cons z zs => simp at h
  | cons x xs ih =>
    cases l₂ with
    | nil => simp at h
    | cons z zs =>
      rw [List.map_cons, List.map_cons] at h
      injection h with hxz hrest
      have hx := spaceToUnderscoreChar_inj x z (h₁ x (List.mem_cons_self x xs))
        (h₂ z (List.mem_cons_self z zs)) hxz
      rw [hx, ih zs (fun a ha => h₁ a (List.mem_cons_of_mem x ha))
        (fun a ha => h₂ a (List.mem_cons_of_mem z ha)) hrest]

theorem takeWhile_all_append (p : Char → Bool) (a : List Char) (c : Char)
    (b : List Char) (ha : ∀ x ∈ a, p x = true) (hc : p c = false) :
    ((a ++ c :: b).takeWhile p) = a := by
  induction a with
  | nil => simp [List.takeWhile_cons, hc]
  | cons x xs ih =>
    have hx := ha x (List.mem_cons_self x xs)
    have ht := ih (fun y hy => ha y (List.mem_cons_of_mem x hy))
    simp [List.takeWhile_cons, hx, ht]

/-- Splitting at the last separator: an append around an underscore whose
right part is underscore-free determines both parts. -/
theorem append_underscore_inj (a₁ b₁ a₂ b₂ : List Char)
    (h₁ : ∀ x ∈ b₁, x ≠ '_') (h₂ : ∀ x ∈ b₂, x ≠ '_')
    (h : a₁ ++ '_' :: b₁ = a₂ ++ '_' :: b₂) : a₁ = a₂ ∧ b₁ = b₂ := by
  have hrev := congrArg List.reverse h
  simp only [List.reverse_append, List.reverse_cons, List.append_assoc,
    List.singleton_append] at hrev
  have hb : b₁.reverse = b₂.reverse := by
    have ht := congrArg (List.takeWhile (fun c => c != '_')) hrev
    rw [takeWhile_all_append _ _ _ _
        (fun x hx => by
          simp only [bne_iff_ne, ne_eq]
          exact h₁ x (List.mem_reverse.mp hx)) (by decide),
      takeWhile_all_append _ _ _ _
        (fun x hx => by
          simp only [bne_iff_ne, ne_eq]
          exact h₂ x (List.mem_reverse.mp hx)) (by decide)] at ht
    exact ht
  have hbeq : b₁ = b₂ := List.reverse_injective hb
  subst hbeq
  exact ⟨List.append_cancel_right h, rfl⟩

theorem ndviChartFilename_data (c y : String) :
    (ndviChartFilename c y).data =
      "ndvi_timeseries_".data ++ (c.data.map spaceToUnderscoreChar ++
        '_' :: (y.data.map spaceToUnderscoreChar ++ ".png".data)) := by
  show (("ndvi_timeseries_" ++ c ++ "_" ++ y ++ ".png").data).map spaceToUnderscoreChar = _
  simp only [String.data_append, List.map_append, List.append_assoc]
  rfl

theorem bloomChartFilename_data (c y : String) :
    (bloomChartFilename c y).data =
      "bloom_timeseries_".data ++ (c.data.map spaceToUnderscoreChar ++
        '_' :: (y.data.map spaceToUnderscoreChar ++ ".png".data)) := by
  show (("bloom_timeseries_" ++ c ++ "_" ++ y ++ ".png").data).map spaceToUnderscoreChar = _
  simp only [String.data_append, List.map_append, List.append_assoc]
  rfl

theorem pyIsDigit_chars (y : String) (h : pyIsDigit y = true) :
    ∀ x ∈ y.data, x.isDigit = true := by
  unfold pyIsDigit at h
  rw [Bool.and_eq_true] at h
  exact fun x hx => List.all_eq_true.mp h.2 x hx

theorem digit_ne_space (x : Char) (h : x.isDigit = true) : x ≠ ' ' := by
  intro hx
  rw [hx] at h
  exact absurd h (by decide)

theorem digit_ne_underscore (x : Char) (h : x.isDigit = true) : x ≠ '_' := by
  intro hx
  rw [hx] at h
  exact absurd h (by decide)

/-- Core injectivity of the filename body around its last underscore:
underscore-free country names and digit years are recovered uniquely. -/
theorem chartFilename_core_inj (P : List Char) (c₁ y₁ c₂ y₂ : String)
    (hc₁ : ∀ x ∈ c₁.data, x ≠ '_') (hc₂ : ∀ x ∈ c₂.data, x ≠ '_')
    (hy₁ : ∀ x ∈ y₁.data, x.isDigit = true) (hy₂ : ∀ x ∈ y₂.data, x.isDigit = true)
    (h : P ++ (c₁.data.map spaceToUnderscoreChar ++
          '_' :: (y₁.data.map spaceToUnderscoreChar ++ ".png".data)) =
        P ++ (c₂.data.map spaceToUnderscoreChar ++
          '_' :: (y₂.data.map spaceToUnderscoreChar ++ ".png".data))) :
    c₁ = c₂ ∧ y₁ = y₂ := by
  have hmap₁ : y₁.data.map spaceToUnderscoreChar = y₁.data :=
    spaceToUnderscoreChar_map_id y₁.data (fun a ha => digit_ne_space a (hy₁ a ha))
  have hmap₂ : y₂.data.map spaceToUnderscoreChar = y₂.data :=
    spaceToUnderscoreChar_map_id y₂.data (fun a ha => digit_ne_space a (hy₂ a ha))
  have h0 := List.append_cancel_left h
  have hb₁ : ∀ x ∈ (y₁.data.map spaceToUnderscoreChar ++ ".png".data), x ≠ '_' := by
    intro x hx
    rcases List.mem_append.mp hx with hx | hx
    · rw [hmap₁] at hx
      exact digit_ne_underscore x (hy₁ x hx)
    · simp at hx
      rcases hx with rfl | rfl | rfl | rfl <;> decide
  have hb₂ : ∀ x ∈ (y₂.data.map spaceToUnderscoreChar ++ ".png".data), x ≠ '_' := by
    intro x hx
    rcases List.mem_append.mp hx with hx | hx
    · rw [hmap₂] at hx
      exact digit_ne_underscore x (hy₂ x hx)
    · simp at hx
      rcases hx with rfl | rfl | rfl | rfl <;> decide
  obtain ⟨hA, hB⟩ := append_underscore_inj _ _ _ _ hb₁ hb₂ h0
  refine ⟨String.ext (map_spaceToUnderscoreChar_inj c₁.data c₂.data hc₁ hc₂ hA), ?_⟩
  have hy := List.append_cancel_right hB
  rw [hmap₁, hmap₂] at hy
  exact String.ext hy

/-- C8 counterexample: the filename map is not collision-free across all
distinct inputs: the two distinct country names written with a space and
with an underscore collide for the same metric and year. -/
theorem chart_filename_collision :
    ndviChartFilename "a b" "2023" = ndviChartFilename "a_b" "2023" ∧
    (("a b" : String) == "a_b") = false :=
  ⟨rfl, rfl⟩

/-- C8 amended: the chart filenames are deterministic and follow the
scheme metric_granularity_country_year.png (metric ndvi or bloom,
granularity timeseries) with every space in the country name replaced by
an underscore; they are collision-free across distinct inputs provided
the country names contain no underscore and the years are digit strings
(two country names that differ only in space versus underscore, such as
a b and a_b, collide); and the two metrics never collide with each
other. -/
theorem chart_filename_amended :
    (∀ c y : String, (y.data.all (fun ch => ch != ' ')) = true →
      ndviChartFilename c y = specChartFilename "ndvi" "timeseries" c y ∧
      bloomChartFilename c y = specChartFilename "bloom" "timeseries" c y) ∧
    (∀ c₁ y₁ c₂ y₂ : String,
      (c₁.data.all (fun ch => ch != '_')) = true →
      (c₂.data.all (fun ch => ch != '_')) = true →
      pyIsDigit y₁ = true → pyIsDigit y₂ = true →
      (ndviChartFilename c₁ y₁ = ndviChartFilename c₂ y₂ ↔ c₁ = c₂ ∧ y₁ = y₂) ∧
      (bloomChartFilename c₁ y₁ = bloomChartFilename c₂ y₂ ↔ c₁ = c₂ ∧ y₁ = y₂)) ∧
    (∀ c₁ y₁ c₂ y₂ : String,
      (ndviChartFilename c₁ y₁ == bloomChartFilename c₂ y₂) = false) := by
  refine ⟨?_, ?_, ?_⟩
  · intro c y hy
    have hmap : y.data.map spaceToUnderscoreChar = y.data :=
      spaceToUnderscoreChar_map_id y.data
        (fun a ha => by
          have := List.all_eq_true.mp hy a ha
          simpa using this)
    constructor
    · apply String.ext
      rw [ndviChartFilename_data, hmap]
      show _ = (("ndvi" ++ "_" ++ "timeseries" ++ "_" ++
        pyReplaceSpaceUnderscore c ++ "_" ++ y ++ ".png").data)
      simp only [String.data_append, List.append_assoc, pyReplaceSpaceUnderscore]
      rfl
    · apply String.ext
      rw [bloomChartFilename_data, hmap]
      show _ = (("bloom" ++ "_" ++ "timeseries" ++ "_" ++
        pyReplaceSpaceUnderscore c ++ "_" ++ y ++ ".png").data)
      simp only [String.data_append, List.append_assoc, pyReplaceSpaceUnderscore]
      rfl
  · intro c₁ y₁ c₂ y₂ hc₁ hc₂ hy₁ hy₂
    have hc₁p : ∀ x ∈ c₁.data, x ≠ '_' := fun x hx => by
      have := List.all_eq_true.mp hc₁ x hx
      simpa using this
    have hc₂p : ∀ x ∈ c₂.data, x ≠ '_' := fun x hx => by
      have := List.all_eq_true.mp hc₂ x hx
      simpa using this
    constructor
    · constructor
      · intro h
        have hd := congrArg String.data h
        rw [ndviChartFilename_data, ndviChartFilename_data] at hd
        exact chartFilename_core_inj _ c₁ y₁ c₂ y₂ hc₁p hc₂p
          (pyIsDigit_chars y₁ hy₁) (pyIsDigit_chars y₂ hy₂) hd
      · rintro ⟨rfl, rfl⟩
        rfl
    · constructor
      · intro h
        have hd := congrArg String.data h
        rw [bloomChartFilename_data, bloomChartFilename_data] at hd
        exact chartFilename_core_inj _ c₁ y₁ c₂ y₂ hc₁p hc₂p
          (pyIsDigit_chars y₁ hy₁) (pyIsDigit_chars y₂ hy₂) hd
      · rintro ⟨rfl, rfl⟩
        rfl
  · intro c₁ y₁ c₂ y₂
    rw [beq_eq_false_iff_ne]
    intro h
    have hd := congrArg String.data h
    rw [ndviChartFilename_data, bloomChartFilename_data] at hd
    have hd2 : ('n' :: ("dvi_timeseries_".data ++
          (c₁.data.map spaceToUnderscoreChar ++
            '_' :: (y₁.data.map spaceToUnderscoreChar ++ ".png".data)))) =
        ('b' :: ("loom_timeseries_".data ++
          (c₂.data.map spaceToUnderscoreChar ++
            '_' :: (y₂.data.map spaceToUnderscoreChar ++ ".png".data)))) := hd
    injection hd2 with h1
    exact absurd h1 (by decide)

/-- C8 amended, instantiated: for a real country name with spaces and a
digit year, the filename determines the inputs. -/
theorem chart_filename_amended_witness :
    ndviChartFilename "Cote d Ivoire" "2023" = ndviChartFilename "Cote d Ivoire" "2023" ↔
      ("Cote d Ivoire" : String) = "Cote d Ivoire" ∧ ("2023" : String) = "2023" :=
  (chart_filename_amended.2.1 "Cote d Ivoire" "2023" "Cote d Ivoire" "2023"
    rfl rfl rfl rfl).1

end Bloomwatch
